import Mathlib

/-!
Verification development for the dragonfly_automation microscopy-automation
package.  Python source files are embedded shallowly: pure functions become
Lean functions over ℚ (every Python float value that occurs here is a finite
rational), uint16 images become lists of naturals, fallible code returns
Except, and the stateful FOV-classification pipeline becomes explicit state
passing over a record mirroring the instance fields of FOVClassifier.
-/

namespace Dragonfly

/-- Floor of a rational, computed with flooring integer division
(kernel-friendly; used by the percentile interpolation and by the
uint8 cast model). -/
def ratFloor (q : ℚ) : ℤ :=
  Int.fdiv q.num (q.den : ℤ)

/-- Truncation of a nonnegative rational to a natural, modelling
numpy `.astype(dtype)` for the nonnegative in-range values produced by
`to_uint8` on uint16 input (toward-zero truncation agrees with floor there). -/
def truncToUint8 (q : ℚ) : ℕ :=
  (ratFloor q).toNat

/-- Insert a rational into a sorted list, keeping it sorted. -/
def insertSorted (x : ℚ) : List ℚ → List ℚ
  | [] => [x]
  | y :: ys => if x ≤ y then x :: y :: ys else y :: insertSorted x ys

/-- Ascending sort of a list of rationals (sorted permutations of a list of
rationals are unique, so this agrees with whatever sort numpy uses). -/
def sortRat (l : List ℚ) : List ℚ :=
  l.foldr insertSorted []

/-- `np.percentile(xs, p)` with numpy's default linear interpolation:
rank `p/100 * (n-1)` into the sorted data, linearly interpolating between
the two neighbouring order statistics.  Junk value 0 on the empty list
(numpy raises there; every call site below is used on nonempty data). -/
def percentile (xs : List ℚ) (p : ℚ) : ℚ :=
  let sorted := sortRat xs
  let n := sorted.length
  if n = 0 then 0
  else
    let rank : ℚ := p / 100 * ((n : ℚ) - 1)
    let i : ℕ := (ratFloor rank).toNat
    let frac : ℚ := rank - (i : ℚ)
    if i + 1 < n then
      sorted.getD i 0 + frac * (sorted.getD (i + 1) 0 - sorted.getD i 0)
    else
      sorted.getD (n - 1) 0

/-- Settings record from `settings_schemas.AutoexposureSettings`, with the
field order of the `pipeline_plate_settings.py` constructor call. -/
structure AutoexposureSettings where
  min_intensity : ℚ
  max_intensity : ℚ
  min_exposure_time : ℚ
  max_exposure_time : ℚ
  default_exposure_time : ℚ
  min_laser_power : ℚ
  relative_exposure_step : ℚ
  z_step_size : ℚ

/-- The literal `autoexposure_settings` instance of
`acquisitions/pipeline_plate_settings.py` (0.8 is written 4/5). -/
def autoexposure_settings : AutoexposureSettings :=
  { min_intensity := 2 ^ 14
    max_intensity := 2 ^ 15
    min_exposure_time := 40
    max_exposure_time := 500
    default_exposure_time := 50
    min_laser_power := 1
    relative_exposure_step := 4 / 5
    z_step_size := 1 }

/-- Settings record from `settings_schemas.StackSettings`. -/
structure StackSettings where
  stage_label : String
  relative_top : ℚ
  relative_bottom : ℚ
  step_size : ℚ

/-- The literal `prod_stack_settings` instance of
`acquisitions/pipeline_plate_settings.py` (0.2 is written 1/5). -/
def prod_stack_settings : StackSettings :=
  { stage_label := "PiezoZ"
    relative_top := 16
    relative_bottom := -6
    step_size := 1 / 5 }

/-- `np.percentile(snap_data, 99.9)` on a uint16 slice image,
as used by `check_slice_for_overexposure` in `operations.py`. -/
def slice_percentile (snap_data : List ℕ) : ℚ :=
  percentile (snap_data.map fun x => (x : ℚ)) (999 / 10)

/-- `operations.check_slice_for_overexposure`: compare the 99.9th percentile
against `max_intensity`; if over-exposed multiply the exposure time by
`relative_exposure_step`, and if that falls below `min_exposure_time` reset
the exposure time to `default_exposure_time` and multiply the laser power by
`relative_exposure_step` instead.  Returns
(laser_power, exposure_time, slice_was_overexposed) as the source does. -/
def check_slice_for_overexposure (laser_power exposure_time : ℚ)
    (snap_data : List ℕ) (s : AutoexposureSettings) : ℚ × ℚ × Bool :=
  if slice_percentile snap_data > s.max_intensity then
    if exposure_time * s.relative_exposure_step < s.min_exposure_time then
      (laser_power * s.relative_exposure_step, s.default_exposure_time, true)
    else
      (laser_power, exposure_time * s.relative_exposure_step, true)
  else
    (laser_power, exposure_time, false)

/-- The (laser power, exposure time) state after `n` successive applications
of `check_slice_for_overexposure` to the same slice image, threading the
returned values back in — the update pattern of the autoexposure loop. -/
def checkState (s : AutoexposureSettings) (snap : List ℕ) (lp et : ℚ) :
    ℕ → ℚ × ℚ
  | 0 => (lp, et)
  | n + 1 =>
    let p := checkState s snap lp et n
    let r := check_slice_for_overexposure p.1 p.2 snap s
    (r.1, r.2.1)

/-- The (n+1)-st application of `check_slice_for_overexposure` takes the
branch that resets the exposure time and lowers the laser power: the slice
is over-exposed and the stepped-down exposure time falls below
`min_exposure_time`. -/
def laserStepFires (s : AutoexposureSettings) (snap : List ℕ) (lp et : ℚ)
    (n : ℕ) : Prop :=
  slice_percentile snap > s.max_intensity ∧
    (checkState s snap lp et n).2 * s.relative_exposure_step <
      s.min_exposure_time

/-- `operations.autoexposure`, fuel-indexed (the Python while-loop need not
terminate in general).  `snapAt z lp et` is the slice image the hardware
returns at stage position `z` with the given laser power and exposure time;
stage moves are modelled as exact, with the reference (AFC) point at z = 0,
so the initial relative move lands on `relative_bottom`.  The source
function mutates `channel_settings` in place and, as its final statement,
returns only `autoexposure_did_succeed` — modelled here as the `Bool`
payload (`none` = fuel exhausted before the sweep completed). -/
def autoexposure (snapAt : ℚ → ℚ → ℚ → List ℕ) (stack : StackSettings)
    (s : AutoexposureSettings) : ℚ → ℚ → ℕ → ℚ → Option Bool
  | _, _, 0, _ => none
  | laser_power, exposure_time, fuel + 1, current_z_position =>
    if current_z_position ≤ stack.relative_top then
      let snap := snapAt current_z_position laser_power exposure_time
      let r := check_slice_for_overexposure laser_power exposure_time snap s
      if r.2.2 then
        autoexposure snapAt stack s r.1 r.2.1 fuel stack.relative_bottom
      else
        autoexposure snapAt stack s laser_power exposure_time fuel
          (current_z_position + stack.step_size)
    else
      some true

/-! ## FOV classifier pipeline (`fov_classifier.py`)

The `catch_errors` decorator and `classify_raw_fov` are embedded as explicit
state passing.  Each wrapped instance method is an image-processing or
model-inference computation whose behaviour on the call's image cannot be
expressed arithmetically, so a run is parametrised by a `StageOutcomes`
record giving, for each wrapped method, the result it would produce if its
body ran: `Except.ok` a value, or `Except.error` an exception message. -/

/-- The dict returned by `FOVClassifier.validate_raw_fov`. -/
structure ValidationResult where
  flag : Bool
  message : Option String
deriving Repr

/-- The `error_info` dict built in `catch_errors`. -/
structure ErrorInfo where
  method_name : String
  error_message : String
deriving Repr, DecidableEq

/-- The per-call instance fields of `FOVClassifier` that
`classify_raw_fov` resets and that `catch_errors` and `make_decision`
manipulate.  `executed` is bookkeeping added by the embedding: it lists, in
order, the wrapped methods whose bodies actually ran (a skipped stage is not
recorded), so that "no subsequent stage executes" is a statable property. -/
structure FOVState where
  error_has_occured : Bool
  decision_has_been_made : Bool
  decision_flag : Option Bool
  reason : Option String
  error_info : Option ErrorInfo
  executed : List String

/-- The state at the top of `classify_raw_fov` (the attribute
`decision_flag` does not exist yet, hence `none`). -/
def initState : FOVState :=
  { error_has_occured := false
    decision_has_been_made := false
    decision_flag := none
    reason := none
    error_info := none
    executed := [] }

/-- `FOVClassifier.make_decision`: a no-op once an error has occurred or a
decision has been made; otherwise records the decision, the reason and the
optional error info.  (`decision` is `Option Bool` because the final call
site passes the prediction stage's result, which is `None` when that stage
was skipped.) -/
def make_decision (st : FOVState) (decision : Option Bool)
    (reason : Option String) (error_info : Option ErrorInfo) : FOVState :=
  if st.error_has_occured || st.decision_has_been_made then st
  else
    { st with
      decision_flag := decision
      decision_has_been_made := true
      error_info := error_info
      reason := reason }

/-- `FOVClassifier.mode`. -/
inductive Mode
  | training
  | prediction

/-- The `catch_errors` decorator applied to one wrapped method call whose
behaviour is `act`.  In training mode the body always runs and exceptions
propagate.  In prediction mode the call is skipped (returning `none`) when
an error has already occurred or the decision has already been made;
otherwise an exception is caught, `make_decision` records a not-good
decision naming the method, and `error_has_occured` is set (in that order,
as in the source). -/
def catch_errors {α : Type} (mode : Mode) (method_name : String)
    (st : FOVState) (act : Except String α) :
    Except String (Option α × FOVState) :=
  match mode with
  | .training =>
    match act with
    | .ok a => .ok (some a, { st with executed := st.executed ++ [method_name] })
    | .error e => .error e
  | .prediction =>
    if st.error_has_occured || st.decision_has_been_made then
      .ok (none, st)
    else
      match act with
      | .ok a =>
        .ok (some a, { st with executed := st.executed ++ [method_name] })
      | .error e =>
        let st := { st with executed := st.executed ++ [method_name] }
        let st := make_decision st (some false)
          (some ("Error in method `FOVClassifier." ++ method_name ++ "`"))
          (some { method_name := method_name, error_message := e })
        .ok (none, { st with error_has_occured := true })

/-- Python truthiness of an optional boolean (`not None` is falsy here). -/
def truthy : Option Bool → Bool
  | none => false
  | some b => b

/-- Per-call behaviour of each wrapped `FOVClassifier` method on the image
being classified (see the section comment above). -/
structure StageOutcomes where
  validate_raw_fov : Except String ValidationResult
  are_nuclei_in_fov : Except String Bool
  generate_background_mask : Except String Unit
  find_nucleus_positions : Except String (List (ℤ × ℤ))
  is_fov_candidate : Except String Bool
  calculate_features : Except String Unit
  predict : Except String Bool

/-- `FOVClassifier.is_fov_candidate` (the body of the wrapped method):
reject when the number of detected nucleus positions is below 10 or
above 100. -/
def is_fov_candidate (positions : List (ℤ × ℤ)) : Bool :=
  let min_num_nuclei : ℕ := 10
  let max_num_nuclei : ℕ := 100
  let num_positions := positions.length
  if num_positions < min_num_nuclei ∨ num_positions > max_num_nuclei then
    false
  else
    true

/-- `FOVClassifier.classify_raw_fov`: the wrapped stages in source order,
with the unwrapped decision logic between them (validation-flag check,
nuclei check, candidacy check, final model-prediction decision), returning
`self.decision_flag`.  Logging calls are elided. -/
def classify_raw_fov (mode : Mode) (o : StageOutcomes) :
    Except String (Option Bool × FOVState) :=
  match catch_errors mode "validate_raw_fov" initState o.validate_raw_fov with
  | .error e => .error e
  | .ok (vr, st1) =>
    let st2 := match vr with
      | none => st1
      | some v =>
        if v.flag then st1
        else make_decision st1 (some false) v.message none
    match catch_errors mode "are_nuclei_in_fov" st2 o.are_nuclei_in_fov with
    | .error e => .error e
    | .ok (nf, st3) =>
      let st4 :=
        if truthy nf then st3
        else make_decision st3 (some false) (some "No nuclei in the FOV") none
      match catch_errors mode "generate_background_mask" st4
          o.generate_background_mask with
      | .error e => .error e
      | .ok (_, st5) =>
        match catch_errors mode "find_nucleus_positions" st5
            o.find_nucleus_positions with
        | .error e => .error e
        | .ok (_, st6) =>
          match catch_errors mode "is_fov_candidate" st6 o.is_fov_candidate with
          | .error e => .error e
          | .ok (cand, st7) =>
            let st8 :=
              if truthy cand then st7
              else
                make_decision st7 (some false)
                  (some "FOV is not a candidate") none
            match catch_errors mode "calculate_features" st8
                o.calculate_features with
            | .error e => .error e
            | .ok (_, st9) =>
              match catch_errors mode "predict" st9 o.predict with
              | .error e => .error e
              | .ok (pred, st10) =>
                let st11 :=
                  make_decision st10 pred (some "Model prediction") none
                .ok (st11.decision_flag, st11)

/-- The outcome, in prediction mode, of a pipeline whose stage `stage`
raised `msg`: the run itself returns normally, the final decision is
not-good with the wrapping error reason, the error info names the stage
and message, and exactly the stages in `trace` ran; in training mode the
same pipeline propagates the exception to the caller. -/
def failedRun (o : StageOutcomes) (stage msg : String)
    (trace : List String) : Prop :=
  (∃ st : FOVState,
    classify_raw_fov Mode.prediction o = .ok (some false, st) ∧
    st.decision_flag = some false ∧
    st.error_info = some { method_name := stage, error_message := msg } ∧
    st.reason = some ("Error in method `FOVClassifier." ++ stage ++ "`") ∧
    st.executed = trace) ∧
  classify_raw_fov Mode.training o = .error msg

/-! ## Confluency assessment (`confluency_assessments.py`) -/

/-- The decision logic of `assess_confluency`, as a function of the three
properties computed by `_calculate_nucleus_position_features`: the nucleus
count, the normalized center-of-mass offset `rel_com_offset`, and the
eigenvalue-asymmetry value (`eval` underscore `ratio` in the source, `asym`
here).  Thresholds and the default good/true values are the literals of the
source; 0.3 is written 3/10.  Returns
(confluency_is_good, confluency_label). -/
def assess_confluency_decision (num_nuclei : ℕ)
    (rel_com_offset asym : ℚ) : Bool × String :=
  let min_num_nuclei : ℕ := 20
  let max_num_nuclei : ℕ := 55
  let max_rel_com_offset : ℚ := 3 / 10
  let max_asym : ℚ := 1
  if num_nuclei > max_num_nuclei then (false, "high")
  else if num_nuclei < min_num_nuclei then (false, "low")
  else if rel_com_offset > max_rel_com_offset ∨ asym > max_asym then
    (false, "anisotropic")
  else (true, "good")

/-! ## Stage motion (`operations.move_z`) -/

/-- A Python value passed as the `position` argument of `move_z`,
classified by how `float(position)` behaves: a finite numeric value; a
not-a-number value; a string that `float` rejects, raising ValueError
(which the source's `except ValueError` catches); or a non-string,
non-numeric object — such as the parameter's default None — for which
`float` raises the builtin TypeError (which that handler does not
catch), tagged with the Python type name named in the builtin message. -/
inductive PyVal
  | num (q : ℚ)
  | nan
  | strBad
  | nonNumeric (tyname : String)

/-- The slice of the hardware core that `move_z` touches: the commanded
z position of the stage and the position the hardware actually reports
back after a move (which may differ from the commanded value). -/
structure MMCore where
  z : ℚ
  report : ℚ → ℚ

/-- `operations.move_z`: validate `kind` (ValueError on a bad kind), then
run `float(position)` inside `try/except ValueError`, re-raising the
ValueError of an unparseable string as TypeError("`position` cannot be
coerced to float") — a non-string, non-numeric position instead raises
the builtin TypeError from `float` itself, which propagates uncaught with
Python's own message — then reject NaN (TypeError), issue the absolute or
relative move, wait for the device, and return the new core state together
with the stage's actually-reported position.  Every raised error is
modelled as `Except.error` carrying its message (the spec's taxonomy
labels them InvalidArgument). -/
def move_z (core : MMCore) (stage_label : String) (position : PyVal)
    (kind : String) : Except String (MMCore × ℚ) :=
  if ¬(kind = "relative" ∨ kind = "absolute") then
    .error "`kind` must be either \x27relative\x27 or \x27absolute\x27"
  else
    match position with
    | .strBad => .error "`position` cannot be coerced to float"
    | .nonNumeric tyname =>
      .error ("float() argument must be a string or a number, not \x27" ++
        tyname ++ "\x27")
    | .nan => .error "`position` cannot be nan"
    | .num p =>
      let core' :=
        if kind = "absolute" then { core with z := p }
        else { core with z := core.z + p }
      .ok (core', core'.report core'.z)

/-! ## Well-id parsing (`utils.well_id_to_position`) -/

/-- The row letters accepted by the `[A-H]` part of the pattern. -/
def rowLetters : List Char :=
  ['A', 'B', 'C', 'D', 'E', 'F', 'G', 'H']

/-- Decimal value of a (checked-elsewhere) digit string, as `int(col)`. -/
def digitsToNat (cs : List Char) : ℕ :=
  cs.foldl (fun acc c => 10 * acc + (c.toNat - 48)) 0

/-- `utils.well_id_to_position`: match `^([A-H])([0-9]\x7b1,2\x7d)$`, then
return (index of the row letter in ABCDEFGH, column number minus one).
`none` models the IndexError the source raises when the pattern does not
match; the column index is an integer because `int(col) - 1` can be -1 for
the matching label column `0`. -/
def well_id_to_position (well_id : String) : Option (ℕ × ℤ) :=
  match well_id.data with
  | [] => none
  | c :: rest =>
    if c ∈ rowLetters ∧ (rest.length = 1 ∨ rest.length = 2) ∧
        rest.all Char.isDigit = true then
      some (rowLetters.findIdx (fun x => x == c), (digitsToNat rest : ℤ) - 1)
    else none

/-- Decimal digits of a column number below 100, without leading zeros. -/
def natDigits (n : ℕ) : List Char :=
  if n < 10 then [Char.ofNat (48 + n)]
  else [Char.ofNat (48 + n / 10), Char.ofNat (48 + n % 10)]

/-- The canonical well label for zero-based row `r` and one-based column
`c`: the row letter followed by the column number (the inverse direction of
`well_id_to_position`, used to state the round trip). -/
def wellLabel (r c : ℕ) : String :=
  ⟨rowLetters.getD r 'A' :: natDigits c⟩

/-! ## Contrast stretch (`utils.to_uint8`) -/

/-- `utils.to_uint8` on a uint16 image (flattened to a list; the source
operates elementwise, so the 2D shape is irrelevant): take the 1st and 99th
percentiles `minn`, `maxx`; if they coincide return the all-zero image;
otherwise shift by `minn`, zero every shifted value below `minn` (the
source compares the already-shifted array against `minn` again), divide by
`maxx - minn`, cap at 1, scale by 255 and cast to uint8. -/
def to_uint8 (im : List ℕ) : List ℕ :=
  let imq := im.map fun x => (x : ℚ)
  let minn := percentile imq 1
  let maxx := percentile imq (100 - 1)
  if minn = maxx then imq.map fun _ => 0
  else
    imq.map fun x =>
      let v1 := x - minn
      let v2 := if v1 < minn then 0 else v1
      let v3 := v2 / (maxx - minn)
      let v4 := if v3 > 1 then 1 else v3
      truncToUint8 (v4 * 255)

/-- Modelled from the spec: the behaviour the claim attributes to
`to_uint8` — values clipped to the 1st/99th-percentile range and linearly
rescaled into [0, 255] (degenerate percentiles still yielding the all-zero
image).  Compared against `to_uint8` to settle the claim. -/
def to_uint8_claimed (im : List ℕ) : List ℕ :=
  let imq := im.map fun x => (x : ℚ)
  let minn := percentile imq 1
  let maxx := percentile imq (100 - 1)
  if minn = maxx then imq.map fun _ => 0
  else
    imq.map fun x =>
      truncToUint8 (min 1 (max 0 ((x - minn) / (maxx - minn))) * 255)

/-! ## Concrete pipeline runs used as witnesses -/

/-- Stage behaviours for a clean image whose feature-calculation stage
raises: everything upstream succeeds (valid image, nuclei present,
candidate FOV) and `calculate_features` raises "synthetic failure". -/
def featuresErrorOutcomes : StageOutcomes :=
  { validate_raw_fov := .ok { flag := true, message := none }
    are_nuclei_in_fov := .ok true
    generate_background_mask := .ok ()
    find_nucleus_positions := .ok []
    is_fov_candidate := .ok true
    calculate_features := .error "synthetic failure"
    predict := .ok true }

/-- Stage behaviours for an image with a single detected nucleus position:
everything upstream succeeds and the candidacy stage computes
`is_fov_candidate` on that position set. -/
def sparseOutcomes : StageOutcomes :=
  { validate_raw_fov := .ok { flag := true, message := none }
    are_nuclei_in_fov := .ok true
    generate_background_mask := .ok ()
    find_nucleus_positions := .ok [(0, 0)]
    is_fov_candidate := .ok (is_fov_candidate [(0, 0)])
    calculate_features := .ok ()
    predict := .ok true }

/-! ## Helper lemmas -/

unseal Rat.add Rat.mul Rat.sub Rat.inv

set_option maxRecDepth 4000

/-- Branch lemma: over-exposed slice with the stepped-down exposure time
below the minimum. -/
theorem check_slice_over_floor {lp et : ℚ} {snap : List ℕ}
    {s : AutoexposureSettings}
    (hover : slice_percentile snap > s.max_intensity)
    (hfloor : et * s.relative_exposure_step < s.min_exposure_time) :
    check_slice_for_overexposure lp et snap s =
      (lp * s.relative_exposure_step, s.default_exposure_time, true) := by
  simp [check_slice_for_overexposure, hover, hfloor]

/-- Branch lemma: over-exposed slice with the stepped-down exposure time
still at or above the minimum. -/
theorem check_slice_over_step {lp et : ℚ} {snap : List ℕ}
    {s : AutoexposureSettings}
    (hover : slice_percentile snap > s.max_intensity)
    (hfloor : ¬ et * s.relative_exposure_step < s.min_exposure_time) :
    check_slice_for_overexposure lp et snap s =
      (lp, et * s.relative_exposure_step, true) := by
  simp [check_slice_for_overexposure, hover, hfloor]

/-- Branch lemma: slice not over-exposed. -/
theorem check_slice_not_over {lp et : ℚ} {snap : List ℕ}
    {s : AutoexposureSettings}
    (hover : ¬ slice_percentile snap > s.max_intensity) :
    check_slice_for_overexposure lp et snap s = (lp, et, false) := by
  simp [check_slice_for_overexposure, hover]

/-! ## Claim theorems -/

/-- C2: for every slice image and (laser power, exposure time) pair,
`check_slice_for_overexposure` declares the slice over-exposed exactly when
the 99.9th-percentile intensity exceeds `max_intensity`; when over-exposed
it steps the exposure time down by `relative_exposure_step`, except that
when the product falls below `min_exposure_time` it instead resets the
exposure time to `default_exposure_time` and steps the laser power down;
when not over-exposed it returns the inputs unchanged. -/
theorem C2_check_slice_for_overexposure_spec (lp et : ℚ) (snap : List ℕ)
    (s : AutoexposureSettings) (hne : snap ≠ []) :
    ((check_slice_for_overexposure lp et snap s).2.2 = true ↔
      slice_percentile snap > s.max_intensity) ∧
    (slice_percentile snap > s.max_intensity →
      et * s.relative_exposure_step < s.min_exposure_time →
      check_slice_for_overexposure lp et snap s =
        (lp * s.relative_exposure_step, s.default_exposure_time, true)) ∧
    (slice_percentile snap > s.max_intensity →
      ¬ et * s.relative_exposure_step < s.min_exposure_time →
      check_slice_for_overexposure lp et snap s =
        (lp, et * s.relative_exposure_step, true)) ∧
    (¬ slice_percentile snap > s.max_intensity →
      check_slice_for_overexposure lp et snap s = (lp, et, false)) := by
  refine ⟨?_, fun h1 h2 => check_slice_over_floor h1 h2,
    fun h1 h2 => check_slice_over_step h1 h2, fun h1 => check_slice_not_over h1⟩
  by_cases hov : slice_percentile snap > s.max_intensity
  · by_cases hfl : et * s.relative_exposure_step < s.min_exposure_time
    · rw [check_slice_over_floor hov hfl]; simpa using hov
    · rw [check_slice_over_step hov hfl]; simpa using hov
  · rw [check_slice_not_over hov]; simpa using hov

/-- C2 witness: the concrete over-exposed slice [65535] at laser power 10
and exposure time 50 under the pipeline-plate settings steps the exposure
time down to 40. -/
theorem C2_witness :
    check_slice_for_overexposure 10 50 [65535] autoexposure_settings =
      (10, 40, true) := by
  have h := (C2_check_slice_for_overexposure_spec 10 50 [65535]
    autoexposure_settings (by decide)).2.2.1 (by decide) (by decide)
  exact h.trans (by decide)

/-- C1: the `autoexposure` operation always reports success when it
terminates — the loop returns only the boolean `autoexposure_did_succeed`,
which is never set to anything but True (evaluated concretely on a
never-over-exposed snap source with the production stack settings).
The final laser power and exposure time are not part of the return value,
contrary to the function's own docstring. -/
theorem C1_autoexposure_returns_flag_only :
    (∀ (snapAt : ℚ → ℚ → ℚ → List ℕ) (stack : StackSettings)
        (s : AutoexposureSettings) (lp et : ℚ) (fuel : ℕ) (z : ℚ),
      autoexposure snapAt stack s lp et fuel z = none ∨
      autoexposure snapAt stack s lp et fuel z = some true) ∧
    autoexposure (fun _ _ _ => [0]) prod_stack_settings autoexposure_settings
      10 50 200 (-6) = some true := by
  constructor
  · intro snapAt stack s lp et fuel z
    induction fuel generalizing lp et z with
    | zero => exact Or.inl rfl
    | succ n ih =>
      by_cases h1 : z ≤ stack.relative_top
      · cases hb : (check_slice_for_overexposure lp et (snapAt z lp et) s).2.2
        · have hr : autoexposure snapAt stack s lp et (n + 1) z =
              autoexposure snapAt stack s lp et n (z + stack.step_size) := by
            simp [autoexposure, h1, hb]
          rw [hr]; exact ih _ _ _
        · have hr : autoexposure snapAt stack s lp et (n + 1) z =
              autoexposure snapAt stack s
                (check_slice_for_overexposure lp et (snapAt z lp et) s).1
                (check_slice_for_overexposure lp et (snapAt z lp et) s).2.1
                n stack.relative_bottom := by
            simp [autoexposure, h1, hb]
          rw [hr]; exact ih _ _ _
      · have hr : autoexposure snapAt stack s lp et (n + 1) z = some true := by
          simp [autoexposure, h1]
        rw [hr]; exact Or.inr rfl
  · decide

/-- C4: the confluency decision applies the first matching rule in order —
count above 55 gives high/not-good, count below 20 gives low/not-good, a
center-of-mass offset above 0.3 or an eigenvalue asymmetry above 1.0 gives
anisotropic/not-good, and otherwise good/true; the flag is true exactly
when the label is good. -/
theorem C4_confluency_decision_tree (num_nuclei : ℕ)
    (rel_com_offset asym : ℚ) :
    (num_nuclei > 55 →
      assess_confluency_decision num_nuclei rel_com_offset asym =
        (false, "high")) ∧
    (¬ num_nuclei > 55 → num_nuclei < 20 →
      assess_confluency_decision num_nuclei rel_com_offset asym =
        (false, "low")) ∧
    (¬ num_nuclei > 55 → ¬ num_nuclei < 20 →
      (rel_com_offset > 3 / 10 ∨ asym > 1) →
      assess_confluency_decision num_nuclei rel_com_offset asym =
        (false, "anisotropic")) ∧
    (¬ num_nuclei > 55 → ¬ num_nuclei < 20 →
      ¬(rel_com_offset > 3 / 10 ∨ asym > 1) →
      assess_confluency_decision num_nuclei rel_com_offset asym =
        (true, "good")) ∧
    ((assess_confluency_decision num_nuclei rel_com_offset asym).1 = true ↔
      (assess_confluency_decision num_nuclei rel_com_offset asym).2 =
        "good") := by
  refine ⟨?_, ?_, ?_, ?_, ?_⟩
  · intro h; simp [assess_confluency_decision, h]
  · intro h1 h2; simp [assess_confluency_decision, h1, h2]
  · intro h1 h2 h3; simp only [assess_confluency_decision]
    rw [if_neg h1, if_neg h2, if_pos h3]
  · intro h1 h2 h3; simp only [assess_confluency_decision]
    rw [if_neg h1, if_neg h2, if_neg h3]
  · simp only [assess_confluency_decision]
    split_ifs <;> decide

/-- C4 witness: count 30, offset 0.1, asymmetry 0.5 is labelled good. -/
theorem C4_witness :
    assess_confluency_decision 30 (1 / 10) (1 / 2) = (true, "good") :=
  (C4_confluency_decision_tree 30 (1 / 10) (1 / 2)).2.2.2.1 (by decide)
    (by decide) (by decide)

/-- C5: a position set with fewer than 10 or more than 100 entries is not a
candidate (and one with exactly 10 or exactly 100 entries is); in that case
a `classify_raw_fov` run in prediction mode, whose upstream stages succeed
and whose candidacy stage computes `is_fov_candidate` on the detected
positions, reaches the final not-good decision with reason
"FOV is not a candidate" and neither the feature-calculation stage nor the
prediction stage executes. -/
theorem C5_candidacy_gate (ps : List (ℤ × ℤ)) :
    ((ps.length < 10 ∨ ps.length > 100) → is_fov_candidate ps = false) ∧
    ((ps.length = 10 ∨ ps.length = 100) → is_fov_candidate ps = true) ∧
    (∀ (o : StageOutcomes) (vm : Option String),
      o.validate_raw_fov = .ok { flag := true, message := vm } →
      o.are_nuclei_in_fov = .ok true →
      o.generate_background_mask = .ok () →
      o.find_nucleus_positions = .ok ps →
      o.is_fov_candidate = .ok (is_fov_candidate ps) →
      (ps.length < 10 ∨ ps.length > 100) →
      ∃ st : FOVState,
        classify_raw_fov Mode.prediction o = .ok (some false, st) ∧
        st.decision_flag = some false ∧
        st.reason = some "FOV is not a candidate" ∧
        st.executed = ["validate_raw_fov", "are_nuclei_in_fov",
          "generate_background_mask", "find_nucleus_positions",
          "is_fov_candidate"] ∧
        "calculate_features" ∉ st.executed ∧ "predict" ∉ st.executed) := by
  refine ⟨?_, ?_, ?_⟩
  · intro h; simp only [is_fov_candidate]; rw [if_pos h]
  · intro h; simp only [is_fov_candidate]
    rcases h with h | h <;> rw [if_neg (by omega)]
  · intro o vm h1 h2 h3 h4 h5 hlen
    have hc : is_fov_candidate ps = false := by
      simp only [is_fov_candidate]; rw [if_pos hlen]
    rw [hc] at h5
    simp only [classify_raw_fov]
    rw [h1, h2, h3, h4, h5]
    refine ⟨_, rfl, rfl, rfl, rfl, ?_, ?_⟩ <;>
    · change _ ∉ (["validate_raw_fov", "are_nuclei_in_fov",
        "generate_background_mask", "find_nucleus_positions",
        "is_fov_candidate"] : List String)
      decide

/-- C5 witness: a single detected position is rejected as not a candidate
without the feature or prediction stages running. -/
theorem C5_witness :
    ∃ st : FOVState,
      classify_raw_fov Mode.prediction sparseOutcomes = .ok (some false, st) ∧
      st.decision_flag = some false ∧
      st.reason = some "FOV is not a candidate" ∧
      st.executed = ["validate_raw_fov", "are_nuclei_in_fov",
        "generate_background_mask", "find_nucleus_positions",
        "is_fov_candidate"] ∧
      "calculate_features" ∉ st.executed ∧ "predict" ∉ st.executed :=
  (C5_candidacy_gate [(0, 0)]).2.2 sparseOutcomes none rfl rfl rfl rfl rfl
    (Or.inl (by decide))

/-- C6 counterexample: at the parameter's default position None — a value
not coercible to float — with a valid kind, the failure carries Python's
builtin TypeError message (the source catches only ValueError from
`float`), not the claimed "cannot be coerced to float". -/
theorem C6_counterexample :
    move_z { z := 0, report := fun q => q } "FocusDrive"
        (PyVal.nonNumeric "NoneType") "absolute" =
      .error
        "float() argument must be a string or a number, not \x27NoneType\x27" ∧
    move_z { z := 0, report := fun q => q } "FocusDrive"
        (PyVal.nonNumeric "NoneType") "absolute" ≠
      .error "`position` cannot be coerced to float" := by
  refine ⟨rfl, fun h => absurd (Except.error.inj h) (by decide)⟩

/-- C6 (amended): `move_z` rejects any kind other than relative/absolute;
a string position that `float` rejects fails with the message "cannot be
coerced to float" (the caught-ValueError path), while a non-string,
non-numeric position fails with the propagating builtin TypeError message
instead; a not-a-number position fails with the nan message; and otherwise
the absolute or relative move is issued and the position the stage
actually reports is returned (an arbitrary function of the commanded
position, so it may differ from the requested value). -/
theorem C6_move_z_validation (core : MMCore) (stage_label : String)
    (position : PyVal) (kind : String) :
    (¬(kind = "relative" ∨ kind = "absolute") →
      move_z core stage_label position kind =
        .error "`kind` must be either \x27relative\x27 or \x27absolute\x27") ∧
    ((kind = "relative" ∨ kind = "absolute") → position = .strBad →
      move_z core stage_label position kind =
        .error "`position` cannot be coerced to float") ∧
    (∀ tyname : String, (kind = "relative" ∨ kind = "absolute") →
      position = .nonNumeric tyname →
      move_z core stage_label position kind =
        .error ("float() argument must be a string or a number, not \x27" ++
          tyname ++ "\x27")) ∧
    ((kind = "relative" ∨ kind = "absolute") → position = .nan →
      move_z core stage_label position kind =
        .error "`position` cannot be nan") ∧
    (∀ q : ℚ, position = .num q → kind = "absolute" →
      move_z core stage_label position kind =
        .ok ({ core with z := q }, core.report q)) ∧
    (∀ q : ℚ, position = .num q → kind = "relative" →
      move_z core stage_label position kind =
        .ok ({ core with z := core.z + q }, core.report (core.z + q))) := by
  refine ⟨?_, ?_, ?_, ?_, ?_, ?_⟩
  · intro hk; simp only [move_z]; rw [if_pos hk]
  · intro hk hp; subst hp; simp only [move_z]; rw [if_neg (not_not_intro hk)]
  · intro tyname hk hp; subst hp; simp only [move_z]
    rw [if_neg (not_not_intro hk)]
  · intro hk hp; subst hp; simp only [move_z]; rw [if_neg (not_not_intro hk)]
  · intro q hp hk; subst hp; subst hk
    simp [move_z]
  · intro q hp hk; subst hp; subst hk
    simp +decide [move_z]

/-- C6 witness: a not-a-number position with a valid kind fails with the
nan message on a concrete core. -/
theorem C6_witness :
    move_z { z := 0, report := fun q => q } "FocusDrive" PyVal.nan
      "absolute" = .error "`position` cannot be nan" :=
  (C6_move_z_validation { z := 0, report := fun q => q } "FocusDrive"
    PyVal.nan "absolute").2.2.2.1 (Or.inr rfl) rfl

/-- Parsing the canonical label of row `r` (zero-based) and column
`cm + 1` recovers the zero-based pair, for the whole 8 by 12 plate. -/
theorem wellLabel_parse : ∀ r < 8, ∀ cm < 12,
    well_id_to_position (wellLabel r (cm + 1)) = some (r, (cm : ℤ)) := by
  decide

/-- C9: `well_id_to_position` maps A1 to (0, 0) and H12 to (7, 11); for
every row letter A-H and column 1-12 it maps the canonical label to the
zero-based (row, column - 1) pair, and the mapping is injective on those
96 labels (so the original label is recoverable from the output). -/
theorem C9_well_id_round_trip :
    well_id_to_position "A1" = some (0, 0) ∧
    well_id_to_position "H12" = some (7, 11) ∧
    (∀ r c : ℕ, r < 8 → 1 ≤ c → c ≤ 12 →
      well_id_to_position (wellLabel r c) = some (r, (c : ℤ) - 1)) ∧
    (∀ r c r2 c2 : ℕ, r < 8 → 1 ≤ c → c ≤ 12 → r2 < 8 → 1 ≤ c2 → c2 ≤ 12 →
      well_id_to_position (wellLabel r c) =
        well_id_to_position (wellLabel r2 c2) →
      wellLabel r c = wellLabel r2 c2) := by
  have key : ∀ r c : ℕ, r < 8 → 1 ≤ c → c ≤ 12 →
      well_id_to_position (wellLabel r c) = some (r, (c : ℤ) - 1) := by
    intro r c hr h1 h2
    obtain ⟨cm, rfl⟩ : ∃ cm, c = cm + 1 := ⟨c - 1, by omega⟩
    have h := wellLabel_parse r hr cm (by omega)
    rw [h]
    simp only [Option.some.injEq, Prod.mk.injEq]
    exact ⟨trivial, by omega⟩
  refine ⟨by decide, by decide, key, ?_⟩
  intro r c r2 c2 hr h1 h2 hr2 h12 h22 heq
  rw [key r c hr h1 h2, key r2 c2 hr2 h12 h22] at heq
  have hrr : r = r2 ∧ (c : ℤ) - 1 = (c2 : ℤ) - 1 := by
    simpa [Prod.ext_iff] using heq
  have hc : c = c2 := by omega
  rw [hrr.1, hc]

/-- C9 witness: the round-trip equation instantiated at row 0, column 1. -/
theorem C9_witness :
    well_id_to_position (wellLabel 0 1) = some (0, (1 : ℤ) - 1) :=
  C9_well_id_round_trip.2.2.1 0 1 (by omega) (by omega) (by omega)

/-- C10: evaluation of `to_uint8` against the clip-and-rescale behaviour
the specification describes (`to_uint8_claimed`).  On the degenerate
constant image both agree on the all-zero output, but on the image
[100, 150, 300] — 1st percentile 101, 99th percentile 297 — the code zeroes
the in-range pixel 150 (it re-compares the already-shifted values against
the 1st percentile), while the claimed rescaling sends it to 63. -/
theorem C10_to_uint8_divergence :
    to_uint8 [7, 7, 7] = [0, 0, 0] ∧
    percentile [(100 : ℚ), 150, 300] 1 = 101 ∧
    percentile [(100 : ℚ), 150, 300] (100 - 1) = 297 ∧
    to_uint8 [100, 150, 300] = [0, 0, 255] ∧
    to_uint8_claimed [100, 150, 300] = [0, 63, 255] ∧
    to_uint8 [100, 150, 300] ≠ to_uint8_claimed [100, 150, 300] := by
  refine ⟨by decide, by decide, by decide, by decide, by decide, by decide⟩

/-- C8 counterexample: at laser power -1 (over-exposed slice, exposure time
10 so the floor branch fires) the returned laser power -4/5 is not ≤ the
input laser power, refuting the claim's unqualified "for every input". -/
theorem C8_laser_power_counterexample :
    ¬ (check_slice_for_overexposure (-1) 10 [65535]
        autoexposure_settings).1 ≤ -1 := by
  decide

/-- C8 (amended): for every input with nonnegative laser power (and a
down-step factor in [0, 1], as in the pipeline settings) the returned laser
power is at most the input laser power; the function never consults
`min_laser_power` (its output is invariant under changing that field); and
under repeated over-exposed calls from the default laser power 10 and
exposure time 50 the laser power falls strictly below `min_laser_power`
within 22 calls — no lower bound is enforced. -/
theorem C8_laser_power_behaviour :
    (∀ (lp et : ℚ) (snap : List ℕ) (s : AutoexposureSettings),
      0 ≤ lp → 0 ≤ s.relative_exposure_step → s.relative_exposure_step ≤ 1 →
      (check_slice_for_overexposure lp et snap s).1 ≤ lp) ∧
    (∀ (lp et : ℚ) (snap : List ℕ) (s : AutoexposureSettings) (mlp : ℚ),
      check_slice_for_overexposure lp et snap
        { s with min_laser_power := mlp } =
      check_slice_for_overexposure lp et snap s) ∧
    (checkState autoexposure_settings [65535] 10 50 22).1 <
      autoexposure_settings.min_laser_power := by
  refine ⟨?_, ?_, by decide⟩
  · intro lp et snap s hlp h0 h1
    simp only [check_slice_for_overexposure]
    split_ifs
    · exact mul_le_of_le_one_right hlp h1
    · exact le_refl lp
    · exact le_refl lp
  · intro lp et snap s mlp
    cases s
    rfl

/-- C8 witness: the monotonicity part of the amended claim at the concrete
over-exposed input with laser power 10. -/
theorem C8_witness :
    (check_slice_for_overexposure 10 50 [65535] autoexposure_settings).1 ≤
      10 :=
  C8_laser_power_behaviour.1 10 50 [65535] autoexposure_settings (by decide)
    (by decide) (by decide)

/-- C7: under persistently over-exposed input and the pipeline-plate
settings, iterating `check_slice_for_overexposure` from any positive
starting exposure time reaches the exposure-floor branch (exposure reset
and laser-power reduction) at the first step `n` for which
`et * (4/5) ^ (n+1)` drops below `min_exposure_time` = 40 — no earlier
step fires, `n` is bounded by any number of 0.8-multiplications that
suffices to drop below 40, and starting from `max_exposure_time` = 500
(or lower) the branch fires within 12 applications. -/
theorem C7_overexposure_convergence (lp et : ℚ) (snap : List ℕ)
    (hpos : 0 < et)
    (hover : slice_percentile snap > autoexposure_settings.max_intensity) :
    ∃ n : ℕ,
      laserStepFires autoexposure_settings snap lp et n ∧
      (∀ j < n, ¬ laserStepFires autoexposure_settings snap lp et j) ∧
      (∀ k : ℕ, et * (4 / 5 : ℚ) ^ (k + 1) < 40 → n ≤ k) ∧
      (et ≤ 500 → n + 1 ≤ 12) := by
  have hP : ∃ k : ℕ, et * (4 / 5 : ℚ) ^ (k + 1) < 40 := by
    obtain ⟨m, hm⟩ := exists_pow_lt_of_lt_one
      (show (0 : ℚ) < 40 / et by positivity)
      (show (4 / 5 : ℚ) < 1 by norm_num)
    refine ⟨m, ?_⟩
    have hstep : (4 / 5 : ℚ) ^ (m + 1) ≤ (4 / 5 : ℚ) ^ m :=
      pow_le_pow_of_le_one (by norm_num) (by norm_num) (Nat.le_succ m)
    have h40 : et * (40 / et) = 40 := by field_simp
    calc et * (4 / 5 : ℚ) ^ (m + 1) ≤ et * (4 / 5 : ℚ) ^ m :=
          mul_le_mul_of_nonneg_left hstep hpos.le
      _ < et * (40 / et) := mul_lt_mul_of_pos_left hm hpos
      _ = 40 := h40
  have hstate : ∀ j, j ≤ Nat.find hP →
      checkState autoexposure_settings snap lp et j =
        (lp, et * (4 / 5 : ℚ) ^ j) := by
    intro j
    induction j with
    | zero => intro _; simp [checkState]
    | succ i ih =>
      intro hj
      have hi := ih (Nat.le_of_succ_le hj)
      have hnof : ¬ et * (4 / 5 : ℚ) ^ (i + 1) < 40 := Nat.find_min hP hj
      have hnofloor : ¬ et * (4 / 5 : ℚ) ^ i *
          autoexposure_settings.relative_exposure_step <
          autoexposure_settings.min_exposure_time := by
        simp only [autoexposure_settings]
        intro hcon
        exact hnof (by calc et * (4 / 5 : ℚ) ^ (i + 1)
              = et * (4 / 5 : ℚ) ^ i * (4 / 5) := by ring
          _ < 40 := hcon)
      simp only [checkState, hi]
      rw [check_slice_over_step hover hnofloor]
      simp only [autoexposure_settings]
      have hpow : et * (4 / 5 : ℚ) ^ i * (4 / 5) =
          et * (4 / 5 : ℚ) ^ (i + 1) := by ring
      rw [hpow]
  refine ⟨Nat.find hP, ⟨hover, ?_⟩, ?_, ?_, ?_⟩
  · rw [hstate (Nat.find hP) le_rfl]
    simp only [autoexposure_settings]
    have hfind := Nat.find_spec hP
    calc et * (4 / 5 : ℚ) ^ Nat.find hP * (4 / 5)
        = et * (4 / 5 : ℚ) ^ (Nat.find hP + 1) := by ring
      _ < 40 := hfind
  · intro j hj hfire
    obtain ⟨_, hf⟩ := hfire
    rw [hstate j hj.le] at hf
    simp only [autoexposure_settings] at hf
    exact Nat.find_min hP hj (by calc et * (4 / 5 : ℚ) ^ (j + 1)
          = et * (4 / 5 : ℚ) ^ j * (4 / 5) := by ring
      _ < 40 := hf)
  · intro k hk
    exact Nat.find_min' hP hk
  · intro h500
    have h11 : et * (4 / 5 : ℚ) ^ (11 + 1) < 40 := by
      calc et * (4 / 5 : ℚ) ^ (11 + 1) ≤ 500 * (4 / 5 : ℚ) ^ (11 + 1) :=
            mul_le_mul_of_nonneg_right h500 (by positivity)
        _ < 40 := by norm_num
    have := Nat.find_min' hP h11
    omega

/-- C7 witness: starting from exposure time 500 on the fully saturated
slice [65535], the laser-reduction branch fires within 12 applications. -/
theorem C7_witness :
    ∃ n : ℕ,
      laserStepFires autoexposure_settings [65535] 10 500 n ∧
      (∀ j < n, ¬ laserStepFires autoexposure_settings [65535] 10 500 j) ∧
      (∀ k : ℕ, 500 * (4 / 5 : ℚ) ^ (k + 1) < 40 → n ≤ k) ∧
      ((500 : ℚ) ≤ 500 → n + 1 ≤ 12) :=
  C7_overexposure_convergence 10 500 [65535] (by norm_num) (by decide)

/-- C3: in prediction mode, an exception in any wrapped pipeline stage is
caught and recorded with the originating stage name and message, the final
decision is immediately not-good with that reason, and no later wrapped
stage executes (the executed-stage trace stops at the failing stage); in
training mode the same exception propagates to the caller
(`failedRun` packages exactly this conclusion). -/
theorem C3_error_containment (o : StageOutcomes) (msg : String) :
    (o.validate_raw_fov = .error msg →
      failedRun o "validate_raw_fov" msg ["validate_raw_fov"]) ∧
    (∀ vm, o.validate_raw_fov = .ok { flag := true, message := vm } →
      o.are_nuclei_in_fov = .error msg →
      failedRun o "are_nuclei_in_fov" msg
        ["validate_raw_fov", "are_nuclei_in_fov"]) ∧
    (∀ vm, o.validate_raw_fov = .ok { flag := true, message := vm } →
      o.are_nuclei_in_fov = .ok true →
      o.generate_background_mask = .ok () →
      (∃ ps, o.find_nucleus_positions = .ok ps) →
      o.is_fov_candidate = .error msg →
      failedRun o "is_fov_candidate" msg
        ["validate_raw_fov", "are_nuclei_in_fov",
         "generate_background_mask", "find_nucleus_positions",
         "is_fov_candidate"]) ∧
    (∀ vm, o.validate_raw_fov = .ok { flag := true, message := vm } →
      o.are_nuclei_in_fov = .ok true →
      o.generate_background_mask = .ok () →
      (∃ ps, o.find_nucleus_positions = .ok ps) →
      o.is_fov_candidate = .ok true →
      o.calculate_features = .error msg →
      failedRun o "calculate_features" msg
        ["validate_raw_fov", "are_nuclei_in_fov",
         "generate_background_mask", "find_nucleus_positions",
         "is_fov_candidate", "calculate_features"]) ∧
    (∀ vm, o.validate_raw_fov = .ok { flag := true, message := vm } →
      o.are_nuclei_in_fov = .ok true →
      o.generate_background_mask = .ok () →
      (∃ ps, o.find_nucleus_positions = .ok ps) →
      o.is_fov_candidate = .ok true →
      o.calculate_features = .ok () →
      o.predict = .error msg →
      failedRun o "predict" msg
        ["validate_raw_fov", "are_nuclei_in_fov",
         "generate_background_mask", "find_nucleus_positions",
         "is_fov_candidate", "calculate_features", "predict"]) := by
  refine ⟨?_, ?_, ?_, ?_, ?_⟩
  · intro h1
    unfold failedRun
    constructor
    · simp only [classify_raw_fov]; rw [h1]
      exact ⟨_, rfl, rfl, rfl, rfl, rfl⟩
    · simp only [classify_raw_fov]; rw [h1]; rfl
  · intro vm h1 h2
    unfold failedRun
    constructor
    · simp only [classify_raw_fov]; rw [h1, h2]
      exact ⟨_, rfl, rfl, rfl, rfl, rfl⟩
    · simp only [classify_raw_fov]; rw [h1, h2]; rfl
  · intro vm h1 h2 h3 hps h5
    obtain ⟨ps, h4⟩ := hps
    unfold failedRun
    constructor
    · simp only [classify_raw_fov]; rw [h1, h2, h3, h4, h5]
      exact ⟨_, rfl, rfl, rfl, rfl, rfl⟩
    · simp only [classify_raw_fov]; rw [h1, h2, h3, h4, h5]; rfl
  · intro vm h1 h2 h3 hps h5 h6
    obtain ⟨ps, h4⟩ := hps
    unfold failedRun
    constructor
    · simp only [classify_raw_fov]; rw [h1, h2, h3, h4, h5, h6]
      exact ⟨_, rfl, rfl, rfl, rfl, rfl⟩
    · simp only [classify_raw_fov]; rw [h1, h2, h3, h4, h5, h6]; rfl
  · intro vm h1 h2 h3 hps h5 h6 h7
    obtain ⟨ps, h4⟩ := hps
    unfold failedRun
    constructor
    · simp only [classify_raw_fov]; rw [h1, h2, h3, h4, h5, h6, h7]
      exact ⟨_, rfl, rfl, rfl, rfl, rfl⟩
    · simp only [classify_raw_fov]; rw [h1, h2, h3, h4, h5, h6, h7]; rfl

/-- C3 witness: a concrete run whose feature-calculation stage raises
"synthetic failure" is contained exactly as the claim states. -/
theorem C3_witness :
    failedRun featuresErrorOutcomes "calculate_features" "synthetic failure"
      ["validate_raw_fov", "are_nuclei_in_fov", "generate_background_mask",
       "find_nucleus_positions", "is_fov_candidate",
       "calculate_features"] :=
  (C3_error_containment featuresErrorOutcomes
    "synthetic failure").2.2.2.1 none rfl rfl rfl ⟨[], rfl⟩ rfl rfl

end Dragonfly
